import Mathlib

/-!
Verification of the capture-pipeline core of a basic network sniffer
(files network_sniffer.py and demo_sniffer.py).

The Python classes NetworkSniffer and DemoNetworkSniffer are shallowly
embedded: the mutable object state becomes the structure SnifferState,
each method becomes a pure function from state (plus the inputs the
environment supplies, such as the captured frame, the wall clock reading
or the success of a file write) to state and result.  Machine-level
details that the claims do not touch (the scapy packet object layout,
JSON text formatting) are modelled at the level the code observes them:
a frame is the tuple of optional protocol layers the code queries, and
the exported file content is the serialized record list itself.
-/

/-- Value stored in the protocol field of a packet record.  The Python
code stores either one of the strings TCP, UDP, ICMP, ARP, Unknown, or
the raw numeric value packet[IP].proto (an int); the sum type keeps the
two kinds apart exactly as Python values do. -/
inductive Proto where
  | TCP
  | UDP
  | ICMP
  | ARP
  | Unknown
  | Num (n : Nat)
deriving DecidableEq

/-- IP layer fields read by analyze_packet. -/
structure IPLayer where
  src : String
  dst : String
  proto : Nat
deriving DecidableEq

/-- TCP layer fields read by analyze_packet. -/
structure TCPLayer where
  sport : Nat
  dport : Nat
  flags : String
deriving DecidableEq

/-- UDP layer fields read by analyze_packet. -/
structure UDPLayer where
  sport : Nat
  dport : Nat
deriving DecidableEq

/-- ICMP layer fields read by analyze_packet. -/
structure ICMPLayer where
  icmpType : Nat
  icmpCode : Nat
deriving DecidableEq

/-- ARP layer fields read by analyze_packet. -/
structure ARPLayer where
  psrc : String
  pdst : String
  hwsrc : String
  hwdst : String
deriving DecidableEq

/-- Ethernet layer fields read by analyze_packet. -/
structure EtherLayer where
  src : String
  dst : String
deriving DecidableEq

/-- A captured frame as analyze_packet observes it: the optional layers
scapy exposes, the frame length, the scapy one-line summary, and the
wall clock reading that datetime.now() returns at analysis time. -/
structure Frame where
  clock : String
  frameLen : Nat
  summaryText : String
  ip : Option IPLayer
  tcp : Option TCPLayer
  udp : Option UDPLayer
  icmp : Option ICMPLayer
  arp : Option ARPLayer
  ether : Option EtherLayer
  raw : Option (List Nat)
deriving DecidableEq

/-- The packet_info dictionary built by analyze_packet.  Keys that the
Python code only adds on some branches (icmp_type, icmp_code, src_mac,
dst_mac) are optional fields that default to none. -/
structure PacketInfo where
  timestamp : String
  length : Nat
  protocol : Proto
  src_ip : String
  dst_ip : String
  src_port : Option Nat
  dst_port : Option Nat
  flags : Option String
  payload : Option String
  summary : String
  icmp_type : Option Nat
  icmp_code : Option Nat
  src_mac : Option String
  dst_mac : Option String
deriving DecidableEq

/-- Lower-case hex digit, as produced by binascii.hexlify. -/
def hexChar (d : Nat) : Char :=
  if d < 10 then Char.ofNat (48 + d) else Char.ofNat (87 + d)

/-- binascii.hexlify over a byte list: two hex digits per byte. -/
def hexlify (bs : List Nat) : String :=
  String.mk (bs.foldr (fun b acc => hexChar (b / 16 % 16) :: hexChar (b % 16) :: acc) [])

/-- NetworkSniffer.analyze_packet: builds the packet_info record from
the frame, translated branch for branch from the Python code.  Within
an IP frame the checks are TCP, then UDP, then ICMP; without an IP
layer the ARP check runs; the Ethernet check runs last and overwrites
the MAC fields when an Ethernet layer is present. -/
def analyze_packet (p : Frame) : PacketInfo :=
  let info : PacketInfo :=
    { timestamp := p.clock
      length := p.frameLen
      protocol := Proto.Unknown
      src_ip := "Unknown"
      dst_ip := "Unknown"
      src_port := none
      dst_port := none
      flags := none
      payload := none
      summary := p.summaryText
      icmp_type := none
      icmp_code := none
      src_mac := none
      dst_mac := none }
  let info :=
    match p.ip with
    | some ipl =>
      let info := { info with src_ip := ipl.src, dst_ip := ipl.dst,
                              protocol := Proto.Num ipl.proto }
      match p.tcp with
      | some t =>
        let info := { info with src_port := some t.sport, dst_port := some t.dport,
                                flags := some t.flags, protocol := Proto.TCP }
        match p.raw with
        | some bs => { info with payload := some (hexlify (bs.take 100)) }
        | none => info
      | none =>
        match p.udp with
        | some u =>
          let info := { info with src_port := some u.sport, dst_port := some u.dport,
                                  protocol := Proto.UDP }
          match p.raw with
          | some bs => { info with payload := some (hexlify (bs.take 100)) }
          | none => info
        | none =>
          match p.icmp with
          | some i => { info with protocol := Proto.ICMP,
                                  icmp_type := some i.icmpType,
                                  icmp_code := some i.icmpCode }
          | none => info
    | none =>
      match p.arp with
      | some a => { info with protocol := Proto.ARP, src_ip := a.psrc, dst_ip := a.pdst,
                              src_mac := some a.hwsrc, dst_mac := some a.hwdst }
      | none => info
  match p.ether with
  | some e => { info with src_mac := some e.src, dst_mac := some e.dst }
  | none => info

/-- Mutable state of a NetworkSniffer object, as set up by __init__.
The packet_queue is the fan-out queue, modelled as the list of records
put into it, in order. -/
structure SnifferState where
  packets : List PacketInfo
  packet_queue : List PacketInfo
  is_capturing : Bool
  packet_count : Nat
  interface : Option String
  filter : String
deriving DecidableEq

/-- NetworkSniffer.__init__. -/
def initState : SnifferState :=
  { packets := []
    packet_queue := []
    is_capturing := false
    packet_count := 0
    interface := none
    filter := "" }

/-- Append to the history list followed by the conditional pop of the
oldest element, as done at the end of packet_callback: append, then if
the length exceeds 1000, pop index 0. -/
def boundedAppend (l : List PacketInfo) (a : PacketInfo) : List PacketInfo :=
  let l2 := l ++ [a]
  if 1000 < l2.length then l2.drop 1 else l2

/-- NetworkSniffer.packet_callback: ignore the frame when not
capturing; otherwise analyze it, append the record to the history,
put it on the fan-out queue, increment packet_count, and drop the
oldest history entry when the history exceeds 1000 records. -/
def packet_callback (st : SnifferState) (p : Frame) : SnifferState :=
  if st.is_capturing = false then st
  else
    let info := analyze_packet p
    { st with packets := boundedAppend st.packets info
              packet_queue := st.packet_queue ++ [info]
              packet_count := st.packet_count + 1 }

/-- DemoNetworkSniffer.packet_callback: identical to the real callback
except that the stored record is the generated demo packet, here passed
in as the environment-supplied value that generate_demo_packet returned. -/
def demo_packet_callback (st : SnifferState) (gen : PacketInfo) : SnifferState :=
  if st.is_capturing = false then st
  else
    { st with packets := boundedAppend st.packets gen
              packet_queue := st.packet_queue ++ [gen]
              packet_count := st.packet_count + 1 }

/-- NetworkSniffer.start_capture: returns False unchanged when already
capturing, otherwise records interface and filter, sets is_capturing,
resets packet_count and returns True.  The spawned thread is modelled
separately by capture_thread. -/
def start_capture (st : SnifferState) (iface : Option String) (filter_str : String) :
    Bool × SnifferState :=
  if st.is_capturing then (false, st)
  else
    (true, { st with interface := iface
                     filter := filter_str
                     is_capturing := true
                     packet_count := 0 })

/-- Body of the thread spawned by start_capture.  When the packet
source opens, sniff drives packet_callback over the delivered frames;
when opening fails, the exception is caught by the except branch, which
only prints, so the state is returned unchanged. -/
def capture_thread (st : SnifferState) (openOk : Bool) (frames : List Frame) :
    SnifferState :=
  if openOk then frames.foldl packet_callback st else st

/-- NetworkSniffer.stop_capture: clears the capturing flag and returns
True. -/
def stop_capture (st : SnifferState) : Bool × SnifferState :=
  (true, { st with is_capturing := false })

/-- Python slice l[s:] for an integer start s: a negative start counts
from the end clamped at 0, a non-negative start is clamped at the
length. -/
def pySliceFrom (l : List PacketInfo) (s : Int) : List PacketInfo :=
  if s < 0 then l.drop (l.length - (-s).toNat)
  else l.drop (min s.toNat l.length)

/-- NetworkSniffer.get_recent_packets: self.packets[-count:] when the
history is nonempty, else the empty list. -/
def get_recent_packets (st : SnifferState) (count : Int) : List PacketInfo :=
  if st.packets.isEmpty then [] else pySliceFrom st.packets (-count)

/-- NetworkSniffer.clear_packets: empties the history and resets
packet_count. -/
def clear_packets (st : SnifferState) : SnifferState :=
  { st with packets := [], packet_count := 0 }

/-- NetworkSniffer.export_packets: json.dump of the full history to the
file, True on success; any exception is caught, printed and turned into
False.  The success of the file write is an environment input; the
second component is the serialized content written (none when the write
failed), the third the object state afterwards. -/
def export_packets (st : SnifferState) (writeOk : Bool) :
    Bool × Option (List PacketInfo) × SnifferState :=
  if writeOk then (true, some st.packets, st) else (false, none, st)

/-- Python dict increment m[k] = m.get(k, 0) + 1 on an
insertion-ordered dictionary, modelled as an association list: an
existing key keeps its position and gets its count bumped, a new key is
appended at the end with count 1. -/
def bump {K : Type} [DecidableEq K] (m : List (K × Nat)) (k : K) : List (K × Nat) :=
  if k ∈ m.map Prod.fst then
    m.map (fun e => if e.1 = k then (e.1, e.2 + 1) else e)
  else m ++ [(k, 1)]

/-- Body of the statistics loop of get_packet_stats, for one stored
packet: the protocol is always counted; the source IP only when it is
not the string Unknown; the source port only when it is truthy in
Python, that is present and nonzero. -/
def statsStep
    (acc : List (Proto × Nat) × List (String × Nat) × List (Nat × Nat))
    (p : PacketInfo) :
    List (Proto × Nat) × List (String × Nat) × List (Nat × Nat) :=
  ( bump acc.1 p.protocol,
    (if p.src_ip = "Unknown" then acc.2.1 else bump acc.2.1 p.src_ip),
    (match p.src_port with
     | some sp => if sp = 0 then acc.2.2 else bump acc.2.2 sp
     | none => acc.2.2) )

/-- The statistics loop of get_packet_stats: one pass over the stored
packets, building the three insertion-ordered frequency dictionaries
protocols, ips, ports. -/
def statsFold (pkts : List PacketInfo) :
    List (Proto × Nat) × List (String × Nat) × List (Nat × Nat) :=
  pkts.foldl statsStep ([], [], [])

/-- One insertion step of the stable descending sort performed by
sorted(items, key count, reverse), specialised to count-valued
association entries: the inserted entry goes in front of the first
entry whose count is less than or equal to its own, so it precedes
every equal-count entry that followed it in the input. -/
def insTop {K : Type} (a : K × Nat) : List (K × Nat) → List (K × Nat)
  | [] => [a]
  | b :: bs => if b.2 ≤ a.2 then a :: b :: bs else b :: insTop a bs

/-- Stable sort by count descending, the semantics of
sorted(items, key count, reverse) in CPython. -/
def sortDesc {K : Type} : List (K × Nat) → List (K × Nat)
  | [] => []
  | a :: as => insTop a (sortDesc as)

/-- dict(sorted(items, key count, reverse)[:10]). -/
def top10 {K : Type} (m : List (K × Nat)) : List (K × Nat) :=
  (sortDesc m).take 10

/-- The stats dictionary returned by get_packet_stats on a nonempty
history. -/
structure Stats where
  total_packets : Nat
  protocols : List (Proto × Nat)
  top_ips : List (String × Nat)
  top_ports : List (Nat × Nat)
deriving DecidableEq

/-- NetworkSniffer.get_packet_stats: the empty dictionary (modelled
none) when no packets are stored, otherwise the stats dictionary built
from one pass over the stored packets with the two top-10 tables. -/
def get_packet_stats (st : SnifferState) : Option Stats :=
  if st.packets.isEmpty then none
  else
    let acc := statsFold st.packets
    some { total_packets := st.packets.length
           protocols := acc.1
           top_ips := top10 acc.2.1
           top_ports := top10 acc.2.2 }

/-- The addresses counted into the ips dictionary, in stream order:
source addresses of the stored packets other than Unknown. -/
def srcIPs (pkts : List PacketInfo) : List String :=
  pkts.filterMap (fun p => if p.src_ip = "Unknown" then none else some p.src_ip)

/-- The ports counted into the ports dictionary, in stream order:
present, nonzero source ports of the stored packets. -/
def srcPorts (pkts : List PacketInfo) : List Nat :=
  pkts.filterMap (fun p =>
    match p.src_port with
    | some sp => if sp = 0 then none else some sp
    | none => none)

/-- First-occurrence subsequence of a stream: the keys of an
insertion-ordered frequency dictionary over the stream, in order. -/
def firstSeen {K : Type} [DecidableEq K] (xs : List K) : List K :=
  xs.foldl (fun acc x => if x ∈ acc then acc else acc ++ [x]) []

/-- A frame with no recognised layers at all. -/
def nullFrame : Frame :=
  { clock := "t0", frameLen := 0, summaryText := "Raw", ip := none, tcp := none,
    udp := none, icmp := none, arp := none, ether := none, raw := none }

/-- A TCP/IP frame, the scenario frame of the spec. -/
def tcpFrame : Frame :=
  { clock := "t1", frameLen := 120, summaryText := "IP / TCP",
    ip := some { src := "192.168.1.10", dst := "10.0.0.5", proto := 6 },
    tcp := some { sport := 51000, dport := 80, flags := "S" },
    udp := none, icmp := none, arp := none, ether := none,
    raw := some [72, 101, 108, 108, 111] }

/-- An ARP request frame. -/
def arpFrame : Frame :=
  { clock := "t2", frameLen := 42, summaryText := "ARP",
    ip := none, tcp := none, udp := none, icmp := none,
    arp := some { psrc := "10.0.0.2", pdst := "10.0.0.1",
                  hwsrc := "aa:bb:cc:dd:ee:01", hwdst := "00:00:00:00:00:00" },
    ether := none, raw := none }

/-- An IP frame whose transport protocol is none of TCP, UDP, ICMP:
protocol number 47 is GRE. -/
def greFrame : Frame :=
  { clock := "t3", frameLen := 60, summaryText := "IP / GRE",
    ip := some { src := "192.168.1.1", dst := "10.0.0.9", proto := 47 },
    tcp := none, udp := none, icmp := none, arp := none, ether := none, raw := none }

/-- Record of the unrecognised frame. -/
def sampleRec : PacketInfo := analyze_packet nullFrame

/-- Record of the TCP frame. -/
def sampleRec2 : PacketInfo := analyze_packet tcpFrame

/-- State holding exactly one record. -/
def oneRecState : SnifferState := { initState with packets := [sampleRec] }

/-- State holding two records. -/
def twoRecState : SnifferState := { initState with packets := [sampleRec, sampleRec2] }

/-- An idle state that is mid-session in every other respect. -/
def capturingState : SnifferState :=
  { packets := [sampleRec], packet_queue := [sampleRec], is_capturing := true,
    packet_count := 7, interface := some "wlan0", filter := "udp" }

/-- The state in which the producer loop starts delivering frames:
the freshly constructed sniffer right after a successful start_capture. -/
def startedState : SnifferState := (start_capture initState none "").2

/-- Running the capture callback over a list of delivered frames. -/
def runCallbacks (st : SnifferState) (fs : List Frame) : SnifferState :=
  fs.foldl packet_callback st

/-- An insertion-ordered frequency dictionary built over a stream of
keys, one bump per occurrence. -/
def freqOf {K : Type} [DecidableEq K] (xs : List K) : List (K × Nat) :=
  xs.foldl bump []

/-- The stats value of the two-record state, computed by hand. -/
def statsTwo : Stats :=
  { total_packets := 2
    protocols := [(Proto.Unknown, 1), (Proto.TCP, 1)]
    top_ips := [("192.168.1.10", 1)]
    top_ports := [(51000, 1)] }

/-- C6: start_capture on a state that is already capturing returns
False with the whole state unchanged, in particular packet_count,
interface and filter; start_capture on an idle state records the given
interface and filter, sets the capturing flag, resets packet_count to
0 and returns True. -/
theorem C6_start_transitions (st : SnifferState) (i : Option String) (f : String) :
    (st.is_capturing = true → start_capture st i f = (false, st)) ∧
    (st.is_capturing = false → start_capture st i f =
      (true, { st with interface := i, filter := f,
                       is_capturing := true, packet_count := 0 })) := by
  constructor <;> intro h <;> simp [start_capture, h]

/-- C6 witness: both transitions evaluated on concrete states. -/
theorem C6_start_transitions_witness :
    start_capture capturingState (some "eth0") "tcp" = (false, capturingState) ∧
    start_capture initState (some "eth0") "tcp" =
      (true, { initState with interface := some "eth0", filter := "tcp",
                              is_capturing := true, packet_count := 0 }) :=
  ⟨(C6_start_transitions capturingState (some "eth0") "tcp").1 rfl,
   (C6_start_transitions initState (some "eth0") "tcp").2 rfl⟩

/-- C8: clear_packets is defined on every state, empties the history,
resets packet_count to 0, leaves is_capturing, interface and filter
unchanged, and afterwards get_recent_packets returns the empty list for
every argument. -/
theorem C8_clear_packets (st : SnifferState) :
    (clear_packets st).packets = [] ∧
    (clear_packets st).packet_count = 0 ∧
    (clear_packets st).is_capturing = st.is_capturing ∧
    (clear_packets st).interface = st.interface ∧
    (clear_packets st).filter = st.filter ∧
    ∀ n : Int, get_recent_packets (clear_packets st) n = [] := by
  refine ⟨rfl, rfl, rfl, rfl, rfl, fun n => ?_⟩
  simp [get_recent_packets, clear_packets]

/-- C9: a frame delivered to packet_callback while is_capturing is
false leaves the state, hence the history, the fan-out queue and
packet_count, completely unchanged; likewise for the demo callback. -/
theorem C9_callback_noop_when_idle (st : SnifferState) (p : Frame) (g : PacketInfo)
    (h : st.is_capturing = false) :
    packet_callback st p = st ∧ demo_packet_callback st g = st := by
  constructor <;> simp [packet_callback, demo_packet_callback, h]

/-- C9 witness: both callbacks evaluated on a concrete idle state. -/
theorem C9_callback_noop_witness :
    packet_callback oneRecState nullFrame = oneRecState ∧
    demo_packet_callback oneRecState sampleRec2 = oneRecState :=
  C9_callback_noop_when_idle oneRecState nullFrame sampleRec2 rfl

/-- C10: export_packets returns True together with the serialization
of the complete current history in insertion order when the file write
succeeds, returns False when it fails, and leaves the state unchanged
in both cases; it is a total function, so it never raises. -/
theorem C10_export_packets (st : SnifferState) :
    export_packets st true = (true, some st.packets, st) ∧
    export_packets st false = (false, none, st) :=
  ⟨rfl, rfl⟩

/-- C5: when the packet source fails to open, start_capture has
already returned True (reporting success, with no typed failure value
anywhere in its Bool result type), and after the spawned thread catches
the exception the session still has is_capturing true: it stays in a
half-started state rather than returning to idle. -/
theorem C5_open_failure_keeps_capturing :
    (start_capture initState (some "badIf") "").1 = true ∧
    (capture_thread (start_capture initState (some "badIf") "").2 false []).is_capturing
      = true :=
  ⟨rfl, rfl⟩

/-- C3 counterexample: on an empty history get_packet_stats returns
the empty dictionary, not the zeroed stats record the claim names. -/
theorem C3_empty_stats_cex :
    get_packet_stats initState ≠
      some { total_packets := 0, protocols := [], top_ips := [], top_ports := [] } := by
  decide

/-- C3 amended: on an empty history get_packet_stats returns the
empty dictionary (modelled as none), and being a total function it
never fails or raises. -/
theorem C3_empty_history_stats (st : SnifferState) (h : st.packets = []) :
    get_packet_stats st = none := by
  simp [get_packet_stats, h]

/-- C3 witness: evaluated on the freshly initialised state. -/
theorem C3_empty_history_stats_witness : get_packet_stats initState = none :=
  C3_empty_history_stats initState rfl

/-- C2 counterexample: on a one-record history, get_recent_packets 0
returns the whole history instead of the empty sequence the claim
requires for n equal to 0. -/
theorem C2_zero_count_cex : get_recent_packets oneRecState 0 ≠ [] := by
  decide

/-- C2 amended: get_recent_packets returns the empty list on an empty
history for every n; for n at least 1 it returns the last min(n, size)
records in insertion order; but for n equal to 0 on a nonempty history
it returns all stored records, and for negative n on a nonempty
history it returns the records after the first min(-n, size). -/
theorem C2_recent_amended (st : SnifferState) (n : Int) :
    (st.packets = [] → get_recent_packets st n = []) ∧
    (1 ≤ n → get_recent_packets st n = st.packets.drop (st.packets.length - n.toNat)) ∧
    (n = 0 → st.packets ≠ [] → get_recent_packets st n = st.packets) ∧
    (n < 0 → st.packets ≠ [] →
      get_recent_packets st n = st.packets.drop (min (-n).toNat st.packets.length)) := by
  refine ⟨fun h => ?_, fun h => ?_, fun h hne => ?_, fun h hne => ?_⟩
  · simp [get_recent_packets, h]
  · by_cases hp : st.packets = []
    · simp [get_recent_packets, hp]
    · have hlt : (-n : Int) < 0 := by omega
      simp only [get_recent_packets, pySliceFrom, List.isEmpty_iff, hp, if_false,
        if_pos hlt, neg_neg]
  · have : (0 : Int) ≤ -n := by omega
    simp only [get_recent_packets, pySliceFrom, List.isEmpty_iff, hne, if_false, h]
    norm_num
  · have hnn : ¬ ((-n : Int) < 0) := by omega
    simp only [get_recent_packets, pySliceFrom, List.isEmpty_iff, hne, if_false,
      if_neg hnn]

/-- C7 counterexample: an IP frame whose transport protocol is GRE
(IP protocol number 47) is stored with the numeric IP protocol as its
protocol field, which is none of the five closed tags: line 170 of the
code first assigns packet[IP].proto and no later branch overwrites it. -/
theorem C7_closed_set_cex :
    ¬ ((analyze_packet greFrame).protocol = Proto.TCP ∨
       (analyze_packet greFrame).protocol = Proto.UDP ∨
       (analyze_packet greFrame).protocol = Proto.ICMP ∨
       (analyze_packet greFrame).protocol = Proto.ARP ∨
       (analyze_packet greFrame).protocol = Proto.Unknown) := by
  decide

/-- C7 amended: classification is first-match in the order TCP, UDP,
ICMP inside an IP frame, then ARP when there is no IP layer, and
Unknown otherwise, so a frame is never dual-classified; but inside an
IP frame whose transport is none of TCP, UDP, ICMP the stored protocol
is the numeric IP protocol number rather than a member of the closed
tag set.  The stored tag depends only on which layers are present,
never on port values, so port-based hints cannot change it. -/
theorem C7_first_match_classification (p : Frame) :
    ((p.ip.isSome ∧ p.tcp.isSome) → (analyze_packet p).protocol = Proto.TCP) ∧
    ((p.ip.isSome ∧ p.tcp = none ∧ p.udp.isSome) →
       (analyze_packet p).protocol = Proto.UDP) ∧
    ((p.ip.isSome ∧ p.tcp = none ∧ p.udp = none ∧ p.icmp.isSome) →
       (analyze_packet p).protocol = Proto.ICMP) ∧
    (∀ ipl : IPLayer, p.ip = some ipl → p.tcp = none → p.udp = none → p.icmp = none →
       (analyze_packet p).protocol = Proto.Num ipl.proto) ∧
    ((p.ip = none ∧ p.arp.isSome) → (analyze_packet p).protocol = Proto.ARP) ∧
    ((p.ip = none ∧ p.arp = none) → (analyze_packet p).protocol = Proto.Unknown) := by
  obtain ⟨c, fl, s, ip, tcp, udp, icmp, arp, eth, raw⟩ := p
  cases ip <;> cases tcp <;> cases udp <;> cases icmp <;> cases arp <;> cases eth <;>
    cases raw <;> simp [analyze_packet]

/-- C7 witness: the four classification outcomes evaluated on concrete
frames, including the numeric tag of the GRE frame. -/
theorem C7_first_match_witness :
    (analyze_packet tcpFrame).protocol = Proto.TCP ∧
    (analyze_packet arpFrame).protocol = Proto.ARP ∧
    (analyze_packet nullFrame).protocol = Proto.Unknown ∧
    (analyze_packet greFrame).protocol = Proto.Num 47 :=
  ⟨(C7_first_match_classification tcpFrame).1 (by decide),
   (C7_first_match_classification arpFrame).2.2.2.2.1 (by decide),
   (C7_first_match_classification nullFrame).2.2.2.2.2 (by decide),
   (C7_first_match_classification greFrame).2.2.2.1 _ rfl rfl rfl rfl⟩

theorem boundedAppend_fold (fs : List PacketInfo) :
    ∀ l0 : List PacketInfo, l0.length ≤ 1000 →
      fs.foldl boundedAppend l0 = (l0 ++ fs).drop (l0.length + fs.length - 1000) := by
  induction fs with
  | nil =>
    intro l0 h
    simp [Nat.sub_eq_zero_of_le h]
  | cons a fs ih =>
    intro l0 h
    by_cases h1 : l0.length + 1 ≤ 1000
    · have hb : boundedAppend l0 a = l0 ++ [a] := by
        simp only [boundedAppend, List.length_append, List.length_singleton]
        rw [if_neg (by omega)]
      rw [List.foldl_cons, hb, ih (l0 ++ [a]) (by simp; omega)]
      have h2 : (l0 ++ [a]) ++ fs = l0 ++ a :: fs := by simp
      have h3 : (l0 ++ [a]).length + fs.length - 1000 =
          l0.length + (a :: fs).length - 1000 := by
        simp only [List.length_append, List.length_singleton, List.length_cons,
          List.length_nil]
        omega
      rw [h2, h3]
    · have hl : l0.length = 1000 := by omega
      have hb : boundedAppend l0 a = (l0 ++ [a]).drop 1 := by
        simp only [boundedAppend, List.length_append, List.length_singleton]
        rw [if_pos (by omega)]
      have hlen : ((l0 ++ [a]).drop 1).length = 1000 := by
        simp [hl]
      rw [List.foldl_cons, hb, ih _ (le_of_eq hlen), hlen]
      have h2 : ((l0 ++ [a]).drop 1) ++ fs = ((l0 ++ [a]) ++ fs).drop 1 :=
        (List.drop_append_of_le_length (by simp)).symm
      rw [h2, List.drop_drop]
      have h3 : (l0 ++ [a]) ++ fs = l0 ++ a :: fs := by simp
      have h4 : 1 + (1000 + fs.length - 1000) = l0.length + (a :: fs).length - 1000 := by
        simp only [List.length_cons, List.length_nil]
        omega
      rw [h3, h4]

theorem packet_callback_packets (st : SnifferState) (p : Frame)
    (h : st.is_capturing = true) :
    (packet_callback st p).packets = boundedAppend st.packets (analyze_packet p) ∧
    (packet_callback st p).is_capturing = true := by
  constructor <;> simp [packet_callback, h]

theorem runCallbacks_packets (fs : List Frame) :
    ∀ st : SnifferState, st.is_capturing = true →
      (runCallbacks st fs).packets =
        (fs.map analyze_packet).foldl boundedAppend st.packets := by
  induction fs with
  | nil => intro st _; rfl
  | cons p fs ih =>
    intro st h
    have hcb := packet_callback_packets st p h
    simp only [runCallbacks, List.foldl_cons, List.map_cons]
    rw [show fs.foldl packet_callback (packet_callback st p) = runCallbacks (packet_callback st p) fs from rfl,
      ih (packet_callback st p) hcb.2, hcb.1]

/-- C1: for every sequence of frames delivered to packet_callback in a
freshly started session, the history never holds more than 1000
records, and the stored sequence is exactly the suffix of the appended
records past the first length - 1000 of them: the last 1000 appended
records in insertion order once more than 1000 have been appended, one
oldest record being evicted by each overflowing append. -/
theorem C1_bounded_history (fs : List Frame) :
    (runCallbacks startedState fs).packets.length ≤ 1000 ∧
    (runCallbacks startedState fs).packets =
      (fs.map analyze_packet).drop ((fs.map analyze_packet).length - 1000) := by
  have h0 : (runCallbacks startedState fs).packets =
      (fs.map analyze_packet).drop ((fs.map analyze_packet).length - 1000) := by
    rw [runCallbacks_packets fs startedState rfl]
    have hs : startedState.packets = [] := rfl
    rw [hs, boundedAppend_fold (fs.map analyze_packet) [] (by simp)]
    simp
  refine ⟨?_, h0⟩
  rw [h0]
  simp only [List.length_drop, List.length_map]
  omega

/-- C2 witness: the amended behaviour evaluated on concrete states and
counts. -/
theorem C2_recent_amended_witness :
    get_recent_packets initState 5 = [] ∧
    get_recent_packets twoRecState 1 =
      twoRecState.packets.drop (twoRecState.packets.length - (1 : Int).toNat) ∧
    get_recent_packets twoRecState 0 = twoRecState.packets ∧
    get_recent_packets twoRecState (-1) =
      twoRecState.packets.drop (min (-(-1) : Int).toNat twoRecState.packets.length) :=
  ⟨(C2_recent_amended initState 5).1 rfl,
   (C2_recent_amended twoRecState 1).2.1 (by decide),
   (C2_recent_amended twoRecState 0).2.2.1 rfl (by decide),
   (C2_recent_amended twoRecState (-1)).2.2.2 (by decide) (by decide)⟩

theorem insTop_length {K : Type} (a : K × Nat) (l : List (K × Nat)) :
    (insTop a l).length = l.length + 1 := by
  induction l with
  | nil => rfl
  | cons b bs ih =>
    by_cases h : b.2 ≤ a.2
    · simp [insTop, if_pos h]
    · simp [insTop, if_neg h, ih]

theorem mem_insTop {K : Type} (x a : K × Nat) (l : List (K × Nat)) :
    x ∈ insTop a l ↔ x = a ∨ x ∈ l := by
  induction l with
  | nil => simp [insTop]
  | cons b bs ih =>
    by_cases h : b.2 ≤ a.2
    · simp [insTop, if_pos h]
    · simp only [insTop, if_neg h, List.mem_cons, ih]
      tauto

theorem pairwise_insTop {K : Type} (a : K × Nat) (l : List (K × Nat))
    (h : l.Pairwise (fun x y => y.2 ≤ x.2)) :
    (insTop a l).Pairwise (fun x y => y.2 ≤ x.2) := by
  induction l with
  | nil => simp [insTop]
  | cons b bs ih =>
    rw [List.pairwise_cons] at h
    by_cases hba : b.2 ≤ a.2
    · simp only [insTop, if_pos hba]
      refine List.pairwise_cons.2 ⟨?_, List.pairwise_cons.2 ⟨h.1, h.2⟩⟩
      intro y hy
      rcases List.mem_cons.1 hy with rfl | hy2
      · exact hba
      · exact le_trans (h.1 y hy2) hba
    · simp only [insTop, if_neg hba]
      refine List.pairwise_cons.2 ⟨?_, ih h.2⟩
      intro y hy
      rcases (mem_insTop y a bs).1 hy with rfl | hy2
      · omega
      · exact h.1 y hy2

theorem sortDesc_length {K : Type} (m : List (K × Nat)) :
    (sortDesc m).length = m.length := by
  induction m with
  | nil => rfl
  | cons a as ih => simp [sortDesc, insTop_length, ih]

theorem mem_sortDesc {K : Type} (x : K × Nat) (m : List (K × Nat)) :
    x ∈ sortDesc m ↔ x ∈ m := by
  induction m with
  | nil => simp [sortDesc]
  | cons a as ih => simp [sortDesc, mem_insTop, ih]

theorem sortDesc_pairwise {K : Type} (m : List (K × Nat)) :
    (sortDesc m).Pairwise (fun x y => y.2 ≤ x.2) := by
  induction m with
  | nil => simp [sortDesc]
  | cons a as ih => exact pairwise_insTop a (sortDesc as) ih

theorem filter_insTop_pos {K : Type} (c : Nat) (a : K × Nat) (l : List (K × Nat))
    (ha : a.2 = c) (hs : l.Pairwise (fun x y => y.2 ≤ x.2)) :
    (insTop a l).filter (fun e => e.2 = c) = a :: l.filter (fun e => e.2 = c) := by
  induction l with
  | nil => simp [insTop, ha]
  | cons b bs ih =>
    rw [List.pairwise_cons] at hs
    by_cases hba : b.2 ≤ a.2
    · simp only [insTop, if_pos hba, List.filter_cons]
      rw [if_pos (by simp [ha])]
    · have hbc : ¬ (b.2 = c) := by omega
      simp only [insTop, if_neg hba, List.filter_cons]
      rw [if_neg (by simp [hbc]), if_neg (by simp [hbc]), ih hs.2]

theorem filter_insTop_neg {K : Type} (c : Nat) (a : K × Nat) (l : List (K × Nat))
    (ha : ¬ (a.2 = c)) :
    (insTop a l).filter (fun e => e.2 = c) = l.filter (fun e => e.2 = c) := by
  induction l with
  | nil => simp [insTop, ha]
  | cons b bs ih =>
    by_cases hba : b.2 ≤ a.2
    · simp only [insTop, if_pos hba, List.filter_cons]
      rw [if_neg (by simp [ha])]
    · simp only [insTop, if_neg hba, List.filter_cons, ih]

theorem filter_sortDesc {K : Type} (c : Nat) (m : List (K × Nat)) :
    (sortDesc m).filter (fun e => e.2 = c) = m.filter (fun e => e.2 = c) := by
  induction m with
  | nil => rfl
  | cons a as ih =>
    by_cases ha : a.2 = c
    · rw [show sortDesc (a :: as) = insTop a (sortDesc as) from rfl,
        filter_insTop_pos c a (sortDesc as) ha (sortDesc_pairwise as), ih,
        List.filter_cons, if_pos (by simp [ha])]
    · rw [show sortDesc (a :: as) = insTop a (sortDesc as) from rfl,
        filter_insTop_neg c a (sortDesc as) ha, ih,
        List.filter_cons, if_neg (by simp [ha])]

theorem top10_length_le {K : Type} (m : List (K × Nat)) : (top10 m).length ≤ 10 := by
  simp only [top10, List.length_take]
  omega

theorem top10_pairwise {K : Type} (m : List (K × Nat)) :
    (top10 m).Pairwise (fun x y => y.2 ≤ x.2) :=
  (sortDesc_pairwise m).sublist (List.take_sublist 10 (sortDesc m))

theorem top10_subset {K : Type} (e : K × Nat) (m : List (K × Nat))
    (h : e ∈ top10 m) : e ∈ m :=
  (mem_sortDesc e m).1 (List.take_subset 10 (sortDesc m) h)

theorem top10_filter_sub {K : Type} (c : Nat) (m : List (K × Nat)) :
    ((top10 m).filter (fun e => e.2 = c)).Sublist m := by
  have h1 := (List.take_sublist 10 (sortDesc m)).filter (fun e => decide (e.2 = c))
  rw [filter_sortDesc] at h1
  exact h1.trans (List.filter_sublist m)

theorem bump_keys {K : Type} [DecidableEq K] (m : List (K × Nat)) (k : K) :
    (bump m k).map Prod.fst =
      if k ∈ m.map Prod.fst then m.map Prod.fst else m.map Prod.fst ++ [k] := by
  by_cases h : k ∈ m.map Prod.fst
  · rw [bump, if_pos h, if_pos h, List.map_map]
    refine List.map_congr_left ?_
    intro e _
    by_cases he : e.1 = k <;> simp [he]
  · rw [bump, if_neg h, if_neg h]
    simp

theorem foldl_bump_keys {K : Type} [DecidableEq K] (xs : List K) :
    ∀ m : List (K × Nat),
      (xs.foldl bump m).map Prod.fst =
        xs.foldl (fun acc x => if x ∈ acc then acc else acc ++ [x]) (m.map Prod.fst) := by
  induction xs with
  | nil => intro m; rfl
  | cons x xs ih =>
    intro m
    rw [List.foldl_cons, List.foldl_cons, ih (bump m x), bump_keys]

theorem freqOf_keys {K : Type} [DecidableEq K] (xs : List K) :
    (freqOf xs).map Prod.fst = firstSeen xs := by
  rw [freqOf, foldl_bump_keys xs []]
  rfl

theorem mem_firstSeen_aux {K : Type} [DecidableEq K] (xs : List K) (x : K) :
    ∀ acc : List K,
      x ∈ xs.foldl (fun acc x => if x ∈ acc then acc else acc ++ [x]) acc →
      x ∈ acc ∨ x ∈ xs := by
  induction xs with
  | nil => intro acc h; exact Or.inl h
  | cons y ys ih =>
    intro acc h
    rw [List.foldl_cons] at h
    rcases ih _ h with h2 | h2
    · by_cases hy : y ∈ acc
      · rw [if_pos hy] at h2
        exact Or.inl h2
      · rw [if_neg hy] at h2
        rcases List.mem_append.1 h2 with h3 | h3
        · exact Or.inl h3
        · simp only [List.mem_singleton] at h3
          subst h3
          exact Or.inr (List.mem_cons_self x ys)
    · exact Or.inr (List.mem_cons_of_mem y h2)

theorem mem_firstSeen {K : Type} [DecidableEq K] (xs : List K) (x : K)
    (h : x ∈ firstSeen xs) : x ∈ xs := by
  rcases mem_firstSeen_aux xs x [] h with h2 | h2
  · cases h2
  · exact h2

theorem mem_srcIPs (pkts : List PacketInfo) (x : String) (h : x ∈ srcIPs pkts) :
    x ≠ "Unknown" ∧ ∃ p ∈ pkts, p.src_ip = x := by
  rw [srcIPs, List.mem_filterMap] at h
  obtain ⟨p, hp, he⟩ := h
  by_cases hu : p.src_ip = "Unknown"
  · rw [if_pos hu] at he
    cases he
  · rw [if_neg hu] at he
    have hx : p.src_ip = x := Option.some.inj he
    subst hx
    exact ⟨hu, ⟨p, hp, rfl⟩⟩

theorem mem_srcPorts (pkts : List PacketInfo) (x : Nat) (h : x ∈ srcPorts pkts) :
    ∃ p ∈ pkts, p.src_port = some x := by
  rw [srcPorts, List.mem_filterMap] at h
  obtain ⟨p, hp, he⟩ := h
  cases hsp : p.src_port with
  | none =>
    rw [hsp] at he
    cases he
  | some sp =>
    rw [hsp] at he
    by_cases h0 : sp = 0
    · simp [h0] at he
    · simp [h0] at he
      subst he
      exact ⟨p, hp, hsp⟩

theorem statsFold_decomp_aux (pkts : List PacketInfo) :
    ∀ a b c, pkts.foldl statsStep (a, b, c) =
      ( (pkts.map PacketInfo.protocol).foldl bump a,
        (srcIPs pkts).foldl bump b,
        (srcPorts pkts).foldl bump c ) := by
  induction pkts with
  | nil => intro a b c; rfl
  | cons p pkts ih =>
    intro a b c
    rw [List.foldl_cons,
      show statsStep (a, b, c) p =
        ( bump a p.protocol,
          (if p.src_ip = "Unknown" then b else bump b p.src_ip),
          (match p.src_port with
           | some sp => if sp = 0 then c else bump c sp
           | none => c) ) from rfl, ih]
    refine Prod.ext rfl (Prod.ext ?_ ?_)
    · by_cases hu : p.src_ip = "Unknown" <;>
        simp [srcIPs, List.filterMap_cons, hu]
    · cases hsp : p.src_port with
      | none => simp [srcPorts, List.filterMap_cons, hsp]
      | some sp =>
        by_cases h0 : sp = 0 <;> simp [srcPorts, List.filterMap_cons, hsp, h0]

theorem statsFold_decomp (pkts : List PacketInfo) :
    statsFold pkts =
      ( freqOf (pkts.map PacketInfo.protocol),
        freqOf (srcIPs pkts),
        freqOf (srcPorts pkts) ) :=
  statsFold_decomp_aux pkts [] [] []

theorem get_packet_stats_eq (st : SnifferState) (h : ¬ st.packets.isEmpty) :
    get_packet_stats st = some
      { total_packets := st.packets.length
        protocols := freqOf (st.packets.map PacketInfo.protocol)
        top_ips := top10 (freqOf (srcIPs st.packets))
        top_ports := top10 (freqOf (srcPorts st.packets)) } := by
  rw [get_packet_stats, if_neg h, statsFold_decomp]

/-- C4: whenever get_packet_stats returns a stats value, its top_ips
and top_ports tables have at most 10 entries each and are sorted by
count descending; among entries of equal count the keys appear as a
subsequence of the first-seen order of the counted stream, so ties
keep first-observed relative order; no top_ips key is the string
Unknown, and every top_ports key is an actual present source port of
some stored packet, so absent ports are never counted. -/
theorem C4_top_tables (st : SnifferState) (s : Stats)
    (h : get_packet_stats st = some s) :
    s.top_ips.length ≤ 10 ∧ s.top_ports.length ≤ 10 ∧
    s.top_ips.Pairwise (fun x y => y.2 ≤ x.2) ∧
    s.top_ports.Pairwise (fun x y => y.2 ≤ x.2) ∧
    (∀ c : Nat, ((s.top_ips.filter (fun e => e.2 = c)).map Prod.fst).Sublist
        (firstSeen (srcIPs st.packets))) ∧
    (∀ c : Nat, ((s.top_ports.filter (fun e => e.2 = c)).map Prod.fst).Sublist
        (firstSeen (srcPorts st.packets))) ∧
    (∀ e ∈ s.top_ips, e.1 ≠ "Unknown") ∧
    (∀ e ∈ s.top_ports, ∃ p ∈ st.packets, p.src_port = some e.1) := by
  by_cases hemp : st.packets.isEmpty
  · rw [get_packet_stats, if_pos hemp] at h
    cases h
  · have h2 := (get_packet_stats_eq st hemp).symm.trans h
    have hs := Option.some.inj h2
    subst hs
    refine ⟨top10_length_le _, top10_length_le _, top10_pairwise _, top10_pairwise _,
      ?_, ?_, ?_, ?_⟩
    · intro c
      have h1 := (top10_filter_sub c (freqOf (srcIPs st.packets))).map Prod.fst
      rwa [freqOf_keys] at h1
    · intro c
      have h1 := (top10_filter_sub c (freqOf (srcPorts st.packets))).map Prod.fst
      rwa [freqOf_keys] at h1
    · intro e he
      have hm := top10_subset e (freqOf (srcIPs st.packets)) he
      have h3 : e.1 ∈ (freqOf (srcIPs st.packets)).map Prod.fst :=
        List.mem_map_of_mem Prod.fst hm
      rw [freqOf_keys] at h3
      exact (mem_srcIPs st.packets e.1 (mem_firstSeen _ _ h3)).1
    · intro e he
      have hm := top10_subset e (freqOf (srcPorts st.packets)) he
      have h3 : e.1 ∈ (freqOf (srcPorts st.packets)).map Prod.fst :=
        List.mem_map_of_mem Prod.fst hm
      rw [freqOf_keys] at h3
      exact mem_srcPorts st.packets e.1 (mem_firstSeen _ _ h3)

/-- C4 witness: the table properties evaluated on the two-record
state, whose stats value is computed concretely. -/
theorem C4_top_tables_witness :
    get_packet_stats twoRecState = some statsTwo ∧
    statsTwo.top_ips.length ≤ 10 ∧
    statsTwo.top_ports.Pairwise (fun x y => y.2 ≤ x.2) ∧
    ((statsTwo.top_ips.filter (fun e => e.2 = 1)).map Prod.fst).Sublist
      (firstSeen (srcIPs twoRecState.packets)) ∧
    (∀ e ∈ statsTwo.top_ips, e.1 ≠ "Unknown") ∧
    (∀ e ∈ statsTwo.top_ports, ∃ p ∈ twoRecState.packets, p.src_port = some e.1) :=
  ⟨rfl,
   (C4_top_tables twoRecState statsTwo rfl).1,
   (C4_top_tables twoRecState statsTwo rfl).2.2.2.1,
   (C4_top_tables twoRecState statsTwo rfl).2.2.2.2.1 1,
   (C4_top_tables twoRecState statsTwo rfl).2.2.2.2.2.2.1,
   (C4_top_tables twoRecState statsTwo rfl).2.2.2.2.2.2.2⟩
